import Mathlib

/-!
Shallow embedding of the device-selection and swapchain-negotiation core of
`src/main.cpp` (HelloTriangleApplication).  A physical device is modelled as a
record bundling the data the capability queries return for it (properties,
features, queue families with their per-index surface-presentation answers,
device extensions, and the surface capability snapshot).  Pure functions of the
source (`findQueueFamilies`, `checkDeviceExtensionSupport`,
`checkAdequateSwapChain`, `isDeviceSuitable`, `rateDeviceSuitability`,
`pickPhysicalDevice`, `chooseSwapSurfaceFormat`, `chooseSwapExtent`, and the
image-count computation of `createSwapChain`) become Lean functions over that
record.  C `uint32_t` values are `Nat` with an explicit `% 2 ^ 32` where the
source can wrap; the C `int` score is `Int`.
-/

namespace VulkanRenderer

/-- Raw Vulkan enum value `VK_PHYSICAL_DEVICE_TYPE_DISCRETE_GPU`. -/
def VK_PHYSICAL_DEVICE_TYPE_DISCRETE_GPU : Nat := 2

/-- Raw Vulkan enum value `VK_FORMAT_B8G8R8A8_SRGB`. -/
def VK_FORMAT_B8G8R8A8_SRGB : Nat := 50

/-- Raw Vulkan enum value `VK_COLOR_SPACE_SRGB_NONLINEAR_KHR`. -/
def VK_COLOR_SPACE_SRGB_NONLINEAR_KHR : Nat := 0

/-- Raw Vulkan enum value `VK_PRESENT_MODE_MAILBOX_KHR`. -/
def VK_PRESENT_MODE_MAILBOX_KHR : Nat := 1

/-- Raw Vulkan enum value `VK_PRESENT_MODE_FIFO_KHR`. -/
def VK_PRESENT_MODE_FIFO_KHR : Nat := 2

/-- `UINT32_MAX`, the reserved sentinel for `currentExtent`. -/
def UINT32_MAX : Nat := 4294967295

/-- `const uint32_t WIDTH = 800` (compile-time preferred window width). -/
def WIDTH : Nat := 800

/-- `const uint32_t HEIGHT = 600` (compile-time preferred window height). -/
def HEIGHT : Nat := 600

/-- `const std::vector<const char *> deviceExtensions = {VK_KHR_SWAPCHAIN_EXTENSION_NAME}`. -/
def deviceExtensions : List String := ["VK_KHR_swapchain"]

/-- `VkExtent2D`: a (width, height) pair of `uint32_t`. -/
structure VkExtent2D where
  width : Nat
  height : Nat
deriving DecidableEq, Repr

/-- The fields of `VkSurfaceCapabilitiesKHR` the source reads. -/
structure VkSurfaceCapabilitiesKHR where
  minImageCount : Nat
  maxImageCount : Nat
  minImageExtent : VkExtent2D
  maxImageExtent : VkExtent2D
  currentExtent : VkExtent2D
deriving DecidableEq, Repr

/-- `VkSurfaceFormatKHR`: a (pixel format, color space) pair of raw enum codes. -/
structure VkSurfaceFormatKHR where
  format : Nat
  colorSpace : Nat
deriving DecidableEq, Repr

/-- One queue family as the source observes it: whether its `queueFlags`
include `VK_QUEUE_GRAPHICS_BIT`, and the answer
`vkGetPhysicalDeviceSurfaceSupportKHR` gives for its index against the
application's surface. -/
structure VkQueueFamilyProperties where
  supportsGraphics : Bool
  supportsPresent : Bool
deriving DecidableEq, Repr

/-- A physical device together with everything the capability-query calls
return for it against the application's surface: device type and
`maxImageDimension2D` (from `vkGetPhysicalDeviceProperties`), the
geometry-shader feature bit (from `vkGetPhysicalDeviceFeatures`), the queue
family list, the available device extensions, and the surface formats, present
modes and capabilities (from `querySwapChainSupport`). -/
structure VkPhysicalDevice where
  deviceType : Nat
  geometryShader : Bool
  maxImageDimension2D : Nat
  queueFamilies : List VkQueueFamilyProperties
  availableExtensions : List String
  formats : List VkSurfaceFormatKHR
  presentModes : List Nat
  capabilities : VkSurfaceCapabilitiesKHR
deriving DecidableEq, Repr

/-- `struct QueueFamilyIndices`. -/
structure QueueFamilyIndices where
  graphicsFamily : Option Nat := none
  presentFamily : Option Nat := none
deriving DecidableEq, Repr

/-- `QueueFamilyIndices::isComplete`. -/
def QueueFamilyIndices.isComplete (indices : QueueFamilyIndices) : Bool :=
  indices.graphicsFamily.isSome && indices.presentFamily.isSome

/-- `struct SwapChainSupportDetails`. -/
structure SwapChainSupportDetails where
  capabilities : VkSurfaceCapabilitiesKHR
  formats : List VkSurfaceFormatKHR
  presentModes : List Nat
deriving DecidableEq, Repr

/-- The loop body of `findQueueFamilies`: walk the family list with counter
`i`, assign `graphicsFamily := i` whenever the family has the graphics bit and
`presentFamily := i` whenever the family can present (each assignment
overwrites any earlier one), and break as soon as `indices.isComplete()`. -/
def findQueueFamiliesAux (indices : QueueFamilyIndices) (i : Nat) :
    List VkQueueFamilyProperties → QueueFamilyIndices
  | [] => indices
  | qf :: rest =>
    let indices1 := if qf.supportsGraphics then { indices with graphicsFamily := some i } else indices
    let indices2 := if qf.supportsPresent then { indices1 with presentFamily := some i } else indices1
    if indices2.isComplete then indices2
    else findQueueFamiliesAux indices2 (i + 1) rest

/-- `findQueueFamilies`: scan the device's queue families starting from an
empty `QueueFamilyIndices` and index `0`. -/
def findQueueFamilies (device : VkPhysicalDevice) : QueueFamilyIndices :=
  findQueueFamiliesAux {} 0 device.queueFamilies

/-- `checkDeviceExtensionSupport`: build the required-extension set, erase
every available extension name from it, and report whether it ended empty.
(`std::set` erasure over the duplicate-free `deviceExtensions` list is list
erasure.) -/
def checkDeviceExtensionSupport (device : VkPhysicalDevice) : Bool :=
  (device.availableExtensions.foldl (fun required ext => required.erase ext) deviceExtensions).isEmpty

/-- `querySwapChainSupport`: package the surface capabilities, formats and
present modes queried for the device. -/
def querySwapChainSupport (device : VkPhysicalDevice) : SwapChainSupportDetails :=
  { capabilities := device.capabilities
    formats := device.formats
    presentModes := device.presentModes }

/-- `checkAdequateSwapChain`: non-empty format list and non-empty
present-mode list. -/
def checkAdequateSwapChain (device : VkPhysicalDevice) : Bool :=
  let swapChainSupport := querySwapChainSupport device
  !swapChainSupport.formats.isEmpty && !swapChainSupport.presentModes.isEmpty

/-- `isDeviceSuitable`: discrete GPU, geometry shader, complete queue roles,
extension support, and swapchain adequacy — the last computed only when
extension support holds, `false` otherwise. -/
def isDeviceSuitable (device : VkPhysicalDevice) : Bool :=
  let indices := findQueueFamilies device
  let extensionsSupported := checkDeviceExtensionSupport device
  let swapChainAdequate := if extensionsSupported then checkAdequateSwapChain device else false
  (device.deviceType == VK_PHYSICAL_DEVICE_TYPE_DISCRETE_GPU) &&
    device.geometryShader && indices.isComplete && extensionsSupported && swapChainAdequate

/-- Reinterpretation of a value as a signed 32-bit `int`: reduce modulo
`2 ^ 32` into `[0, 2 ^ 32)` and shift the upper half down into
`[-2 ^ 31, 2 ^ 31)`.  This is what storing an out-of-range unsigned 32-bit
result back into a C `int` does. -/
def toInt32 (n : Int) : Int :=
  let m := n % 4294967296
  if m < 2147483648 then m else m - 4294967296

/-- `rateDeviceSuitability`: `int score = 0`; `+1000` for a discrete GPU;
`+10` for complete queue roles; then `score += maxImageDimension2D`, an
`int += uint32_t` step whose usual arithmetic conversions perform the addition
in unsigned 32-bit and store the result back into the signed `int` score
(`toInt32` of the exact sum, since the score before this step is one of 0, 10,
1000, 1010); then return `0` if the geometry-shader feature or extension
support is missing, or if (extensions supported) the swapchain is inadequate;
otherwise return the score. -/
def rateDeviceSuitability (device : VkPhysicalDevice) : Int :=
  let score : Int := 0
  let score := if device.deviceType == VK_PHYSICAL_DEVICE_TYPE_DISCRETE_GPU then score + 1000 else score
  let indices := findQueueFamilies device
  let score := if indices.isComplete then score + 10 else score
  let score := toInt32 (score + (device.maxImageDimension2D : Int))
  let extensionsSupported := checkDeviceExtensionSupport device
  if !device.geometryShader || !extensionsSupported then 0
  else if extensionsSupported && !checkAdequateSwapChain device then 0
  else score

/-- The two `std::runtime_error` exits of `pickPhysicalDevice`. -/
inductive PickError where
  /-- "Failed to find GPUs with Vulkan support!" (zero devices enumerated). -/
  | noVulkanGPU : PickError
  /-- "Failed to find a suitable GPU!" (best candidate's score is not positive). -/
  | noSuitableGPU : PickError
deriving DecidableEq, Repr

/-- One `std::multimap<int, VkPhysicalDevice>::insert`: place the new pair
after every entry whose key is `≤` its key (at the upper bound), keeping the
list sorted by key with insertion order preserved among equal keys. -/
def multimapInsert (p : Int × VkPhysicalDevice) :
    List (Int × VkPhysicalDevice) → List (Int × VkPhysicalDevice)
  | [] => [p]
  | q :: rest => if q.1 ≤ p.1 then q :: multimapInsert p rest else p :: q :: rest

/-- `pickPhysicalDevice`: throw if no device is enumerated; insert
`(rateDeviceSuitability(device), device)` for each device into the candidates
multimap; pick `candidates.rbegin()->second` (the last entry, i.e. the
greatest key) when its key is positive, otherwise throw.  The `none` branch of
`getLast?` is unreachable for a non-empty device list. -/
def pickPhysicalDevice (devices : List VkPhysicalDevice) :
    Except PickError VkPhysicalDevice :=
  if devices.isEmpty then .error .noVulkanGPU
  else
    let candidates := devices.foldl
      (fun cs device => multimapInsert (rateDeviceSuitability device, device) cs) []
    match candidates.getLast? with
    | some best => if best.1 > 0 then .ok best.2 else .error .noSuitableGPU
    | none => .error .noSuitableGPU

/-- The preferred (format, color space) pair `chooseSwapSurfaceFormat` scans
for: `VK_FORMAT_B8G8R8A8_SRGB` with `VK_COLOR_SPACE_SRGB_NONLINEAR_KHR`. -/
def isPreferredSurfaceFormat (f : VkSurfaceFormatKHR) : Bool :=
  f.format == VK_FORMAT_B8G8R8A8_SRGB && f.colorSpace == VK_COLOR_SPACE_SRGB_NONLINEAR_KHR

/-- The scanning loop of `chooseSwapSurfaceFormat`: return the first format
matching the preferred pair, `none` if the loop falls through. -/
def chooseSwapSurfaceFormatLoop : List VkSurfaceFormatKHR → Option VkSurfaceFormatKHR
  | [] => none
  | f :: rest =>
    if isPreferredSurfaceFormat f then some f else chooseSwapSurfaceFormatLoop rest

/-- `chooseSwapSurfaceFormat`: the loop's first match if any, otherwise the
fallback `availableFormats[0]`.  `none` models the out-of-bounds access the
fallback performs on an empty vector. -/
def chooseSwapSurfaceFormat (availableFormats : List VkSurfaceFormatKHR) :
    Option VkSurfaceFormatKHR :=
  match chooseSwapSurfaceFormatLoop availableFormats with
  | some f => some f
  | none => availableFormats.head?

/-- `chooseSwapPresentMode`: `VK_PRESENT_MODE_MAILBOX_KHR` if it is in the
supported list, else `VK_PRESENT_MODE_FIFO_KHR`. -/
def chooseSwapPresentMode (availablePresentModes : List Nat) : Nat :=
  if availablePresentModes.any (· == VK_PRESENT_MODE_MAILBOX_KHR) then VK_PRESENT_MODE_MAILBOX_KHR
  else VK_PRESENT_MODE_FIFO_KHR

/-- `chooseSwapExtent`: if `currentExtent.width != UINT32_MAX` return
`currentExtent` unchanged; otherwise clamp `(WIDTH, HEIGHT)` componentwise
into `[minImageExtent, maxImageExtent]`. -/
def chooseSwapExtent (capabilities : VkSurfaceCapabilitiesKHR) : VkExtent2D :=
  if capabilities.currentExtent.width ≠ UINT32_MAX then capabilities.currentExtent
  else
    { width := max capabilities.minImageExtent.width (min capabilities.maxImageExtent.width WIDTH)
      height := max capabilities.minImageExtent.height (min capabilities.maxImageExtent.height HEIGHT) }

/-- The image-count computation of `createSwapChain`:
`uint32_t imageCount = capabilities.minImageCount + 1` (a `uint32_t` addition,
hence taken `% 2 ^ 32`), clamped down to `maxImageCount` when that is nonzero
and exceeded. -/
def createSwapChainImageCount (capabilities : VkSurfaceCapabilitiesKHR) : Nat :=
  let imageCount := (capabilities.minImageCount + 1) % 4294967296
  if capabilities.maxImageCount > 0 && imageCount > capabilities.maxImageCount then
    capabilities.maxImageCount
  else imageCount

/-- The queue-family scan as the specification words it: the graphics role is
the first (lowest) index whose flags include graphics capability, and the
present role is independently the first (lowest) index that supports
presentation.  Kept separate from `findQueueFamilies` to compare the code
against the specification. -/
def findQueueFamiliesSpec (device : VkPhysicalDevice) : QueueFamilyIndices :=
  { graphicsFamily := device.queueFamilies.findIdx? (·.supportsGraphics)
    presentFamily := device.queueFamilies.findIdx? (·.supportsPresent) }

/-- The index of the last family satisfying `p` in a list scanned from
position `i` with an already-accumulated answer `acc`: each match overwrites
the accumulator, exactly like the assignments in `findQueueFamilies`. -/
def lastMatchIdxFrom (p : VkQueueFamilyProperties → Bool) (i : Nat) (acc : Option Nat) :
    List VkQueueFamilyProperties → Option Nat
  | [] => acc
  | qf :: rest => lastMatchIdxFrom p (i + 1) (if p qf then some i else acc) rest

/-- How many families `findQueueFamilies` examines before its early `break`:
it stops right after the first family at which both a graphics match and a
present match have been seen (the two Booleans carry what was already seen). -/
def examinedCount (sawGraphics sawPresent : Bool) : List VkQueueFamilyProperties → Nat
  | [] => 0
  | qf :: rest =>
    let sawG := sawGraphics || qf.supportsGraphics
    let sawP := sawPresent || qf.supportsPresent
    if sawG && sawP then 1 else examinedCount sawG sawP rest + 1

/-- A surface capability snapshot with ample bounds: image counts 2 to
unbounded, extents 1×1 to 4096×4096, sentinel current extent. -/
def adequateCaps : VkSurfaceCapabilitiesKHR :=
  { minImageCount := 2, maxImageCount := 0,
    minImageExtent := ⟨1, 1⟩, maxImageExtent := ⟨4096, 4096⟩,
    currentExtent := ⟨4294967295, 4294967295⟩ }

/-- A fully capable discrete GPU: geometry shader, one family carrying both
roles, the swapchain extension, and non-empty format and present-mode lists. -/
def goodDevice : VkPhysicalDevice :=
  { deviceType := VK_PHYSICAL_DEVICE_TYPE_DISCRETE_GPU, geometryShader := true,
    maxImageDimension2D := 4096,
    queueFamilies := [{ supportsGraphics := true, supportsPresent := true }],
    availableExtensions := ["VK_KHR_swapchain"],
    formats := [⟨50, 0⟩], presentModes := [2], capabilities := adequateCaps }

/-- A device identical to `goodDevice` except that it exposes no queue family
at all, so its `QueueFamilyIndices` are incomplete. -/
def deviceIncompleteRoles : VkPhysicalDevice :=
  { deviceType := VK_PHYSICAL_DEVICE_TYPE_DISCRETE_GPU, geometryShader := true,
    maxImageDimension2D := 4096,
    queueFamilies := [],
    availableExtensions := ["VK_KHR_swapchain"],
    formats := [⟨50, 0⟩], presentModes := [2], capabilities := adequateCaps }

/-- A device whose family 0 is graphics-only and whose family 1 has both
roles: the scan of `findQueueFamilies` overwrites the graphics role with
index 1 even though index 0 matched first. -/
def deviceLateGraphicsOverwrite : VkPhysicalDevice :=
  { deviceType := VK_PHYSICAL_DEVICE_TYPE_DISCRETE_GPU, geometryShader := true,
    maxImageDimension2D := 4096,
    queueFamilies := [⟨true, false⟩, ⟨true, true⟩],
    availableExtensions := ["VK_KHR_swapchain"],
    formats := [⟨50, 0⟩], presentModes := [2], capabilities := adequateCaps }

/-- A device identical to `goodDevice` except that its `maxImageDimension2D`
is `2 ^ 31 - 1`: the bonuses of 1010 push the `int` score past `INT_MAX`, so
the `uint32_t` addition stored back into the `int` wraps negative. -/
def deviceWrapScore : VkPhysicalDevice :=
  { deviceType := VK_PHYSICAL_DEVICE_TYPE_DISCRETE_GPU, geometryShader := true,
    maxImageDimension2D := 2147483647,
    queueFamilies := [{ supportsGraphics := true, supportsPresent := true }],
    availableExtensions := ["VK_KHR_swapchain"],
    formats := [⟨50, 0⟩], presentModes := [2], capabilities := adequateCaps }

/-- A device advertising no extension, so the required swapchain extension is
unsupported. -/
def deviceNoSwapchainExt : VkPhysicalDevice :=
  { deviceType := VK_PHYSICAL_DEVICE_TYPE_DISCRETE_GPU, geometryShader := true,
    maxImageDimension2D := 4096,
    queueFamilies := [{ supportsGraphics := true, supportsPresent := true }],
    availableExtensions := [],
    formats := [⟨50, 0⟩], presentModes := [2], capabilities := adequateCaps }

/-- A capability snapshot whose `minImageCount` is `UINT32_MAX`, making the
`uint32_t` increment in `createSwapChain` wrap to `0`, with no upper bound. -/
def wrapCaps : VkSurfaceCapabilitiesKHR :=
  { minImageCount := 4294967295, maxImageCount := 0,
    minImageExtent := ⟨1, 1⟩, maxImageExtent := ⟨1, 1⟩, currentExtent := ⟨1, 1⟩ }

/-!  Theorems.  -/

/-- Closed form of `rateDeviceSuitability`: the 32-bit-wrapped additive
score, vetoed to `0` when the geometry shader is absent, the required
extensions are unsupported, or (extensions supported) the swapchain is
inadequate. -/
theorem rateDeviceSuitability_eq (device : VkPhysicalDevice) :
    rateDeviceSuitability device =
      if !device.geometryShader || !checkDeviceExtensionSupport device
          || (checkDeviceExtensionSupport device && !checkAdequateSwapChain device) then 0
      else
        toInt32 ((if device.deviceType == VK_PHYSICAL_DEVICE_TYPE_DISCRETE_GPU then (1000 : Int) else 0)
          + (if (findQueueFamilies device).isComplete then 10 else 0)
          + (device.maxImageDimension2D : Int)) := by
  unfold rateDeviceSuitability
  cases hgeo : device.geometryShader <;>
    cases hext : checkDeviceExtensionSupport device <;>
      cases hadq : checkAdequateSwapChain device <;>
        cases hdisc : device.deviceType == VK_PHYSICAL_DEVICE_TYPE_DISCRETE_GPU <;>
          cases hcomp : (findQueueFamilies device).isComplete <;>
            simp [hgeo, hext, hadq, hdisc, hcomp]

/-- `toInt32` is the identity on `[0, 2 ^ 31)`. -/
theorem toInt32_eq_self (n : Int) (h0 : 0 ≤ n) (h : n < 2147483648) : toInt32 n = n := by
  unfold toInt32
  rw [Int.emod_eq_of_lt h0 (by omega)]
  rw [if_pos h]

/-- C1 counterexample: a discrete, complete, fully veto-passing device with
`maxImageDimension2D = 2 ^ 31 - 1` makes the `int` score wrap: the claimed
additive sum is `1010 + (2 ^ 31 - 1) = 2147484657`, but the program stores
the unsigned 32-bit sum back into the signed `int` score, yielding
`-2147482639`, so the score does not equal the sum. -/
theorem rateDeviceSuitability_wraps :
    rateDeviceSuitability deviceWrapScore = -2147482639 ∧
    rateDeviceSuitability deviceWrapScore ≠
      1000 + 10 + (deviceWrapScore.maxImageDimension2D : Int) ∧
    deviceWrapScore.geometryShader = true ∧
    checkDeviceExtensionSupport deviceWrapScore = true ∧
    checkAdequateSwapChain deviceWrapScore = true := by
  refine ⟨by decide, by decide, by decide, by decide, by decide⟩

/-- C1 amended: whenever the additive sum — 1000 for a discrete GPU, 10 for
complete queue-family roles, plus `maxImageDimension2D` — stays below
`2 ^ 31` (so the `int` arithmetic does not wrap), `rateDeviceSuitability`
equals exactly that sum, forced to exactly 0 when the geometry-shader feature
is absent, the required extensions are unsupported, or (extensions supported)
the swapchain support is inadequate. -/
theorem rateDeviceSuitability_score_spec (device : VkPhysicalDevice)
    (hnw : (if device.deviceType == VK_PHYSICAL_DEVICE_TYPE_DISCRETE_GPU then (1000 : Int) else 0)
        + (if (findQueueFamilies device).isComplete then 10 else 0)
        + (device.maxImageDimension2D : Int) < 2147483648) :
    rateDeviceSuitability device =
      if !device.geometryShader || !checkDeviceExtensionSupport device
          || (checkDeviceExtensionSupport device && !checkAdequateSwapChain device) then 0
      else
        (if device.deviceType == VK_PHYSICAL_DEVICE_TYPE_DISCRETE_GPU then (1000 : Int) else 0)
          + (if (findQueueFamilies device).isComplete then 10 else 0)
          + (device.maxImageDimension2D : Int) := by
  rw [rateDeviceSuitability_eq device]
  rw [toInt32_eq_self _ (by positivity) hnw]

/-- C1 amended, witness: the fully capable concrete device has sum
1000 + 10 + 4096 below `2 ^ 31` and scores exactly 5106. -/
theorem rateDeviceSuitability_score_spec_witness :
    rateDeviceSuitability goodDevice = 5106 := by
  have hw := rateDeviceSuitability_score_spec goodDevice (by decide)
  rw [hw]
  decide

/-- C3 counterexample: a discrete geometry-shader GPU with the required
extension and an adequate swapchain but not a single queue family has
incomplete `QueueFamilyIndices`, yet `rateDeviceSuitability` returns
1000 + 4096 = 5096, not 0 — and `pickPhysicalDevice` even selects it. -/
theorem rateDeviceSuitability_incomplete_not_zero :
    (findQueueFamilies deviceIncompleteRoles).isComplete = false ∧
    rateDeviceSuitability deviceIncompleteRoles = 5096 ∧
    pickPhysicalDevice [deviceIncompleteRoles] = .ok deviceIncompleteRoles := by
  refine ⟨by decide, by decide, by rfl⟩

/-- C3 amended: incomplete `QueueFamilyIndices` only forfeit the +10
completeness bonus; whenever the remaining sum of the discrete-GPU bonus and
`maxImageDimension2D` stays below `2 ^ 31` (no `int` wrap), the score is still
that vetoed sum, so such a device is not excluded. -/
theorem rateDeviceSuitability_incomplete_spec (device : VkPhysicalDevice)
    (h : (findQueueFamilies device).isComplete = false)
    (hnw : (if device.deviceType == VK_PHYSICAL_DEVICE_TYPE_DISCRETE_GPU then (1000 : Int) else 0)
        + (device.maxImageDimension2D : Int) < 2147483648) :
    rateDeviceSuitability device =
      if !device.geometryShader || !checkDeviceExtensionSupport device
          || (checkDeviceExtensionSupport device && !checkAdequateSwapChain device) then 0
      else
        (if device.deviceType == VK_PHYSICAL_DEVICE_TYPE_DISCRETE_GPU then (1000 : Int) else 0)
          + (device.maxImageDimension2D : Int) := by
  rw [rateDeviceSuitability_eq, h]
  simp only [Bool.false_eq_true, if_false, add_zero]
  rw [toInt32_eq_self _ (by split_ifs <;> omega) hnw]

/-- C3 amended, witness: the concrete incomplete-roles device evaluates to a
positive score. -/
theorem rateDeviceSuitability_incomplete_spec_witness :
    rateDeviceSuitability deviceIncompleteRoles = 5096 := by
  have h := rateDeviceSuitability_incomplete_spec deviceIncompleteRoles (by decide) (by decide)
  rw [h]
  decide

/-- C5: `isDeviceSuitable` is the conjunction of the five hard requirements
(discrete GPU, geometry shader, complete queue roles, extension support,
swapchain adequacy), and swapchain adequacy is treated as `false` whenever
extension support fails, so the function returns `false` outright then. -/
theorem isDeviceSuitable_spec (device : VkPhysicalDevice) :
    (isDeviceSuitable device =
      ((device.deviceType == VK_PHYSICAL_DEVICE_TYPE_DISCRETE_GPU) && device.geometryShader &&
        (findQueueFamilies device).isComplete && checkDeviceExtensionSupport device &&
        checkAdequateSwapChain device)) ∧
    (checkDeviceExtensionSupport device = false → isDeviceSuitable device = false) := by
  constructor
  · unfold isDeviceSuitable
    cases hext : checkDeviceExtensionSupport device <;> simp [hext]
  · intro hext
    unfold isDeviceSuitable
    simp [hext]

/-- C5 witness: on the concrete device without the swapchain extension,
`isDeviceSuitable` is `false`. -/
theorem isDeviceSuitable_spec_witness : isDeviceSuitable deviceNoSwapchainExt = false :=
  (isDeviceSuitable_spec deviceNoSwapchainExt).2 (by decide)

/-- The scan of `findQueueFamilies` in closed form: starting from accumulator
`⟨g, p⟩` at index `i`, it examines `examinedCount` families and records for
each role the last matching index among them. -/
theorem findQueueFamiliesAux_eq (fams : List VkQueueFamilyProperties) :
    ∀ (i : Nat) (g p : Option Nat),
    findQueueFamiliesAux ⟨g, p⟩ i fams =
      { graphicsFamily := lastMatchIdxFrom (·.supportsGraphics) i g
          (fams.take (examinedCount g.isSome p.isSome fams))
        presentFamily := lastMatchIdxFrom (·.supportsPresent) i p
          (fams.take (examinedCount g.isSome p.isSome fams)) } := by
  induction fams with
  | nil => intro i g p; rfl
  | cons qf rest ih =>
    intro i g p
    cases hg : qf.supportsGraphics <;> cases hp : qf.supportsPresent <;>
      cases g <;> cases p <;>
        simp [findQueueFamiliesAux, examinedCount, lastMatchIdxFrom,
          QueueFamilyIndices.isComplete, hg, hp, ih]

/-- C4 counterexample: with family 0 graphics-only and family 1 carrying both
roles, the first graphics-capable index is 0, yet `findQueueFamilies` records
index 1 for both roles: each matching iteration overwrites the role, so the
lowest-index match does not win and the result differs from the
first-match reading `findQueueFamiliesSpec`. -/
theorem findQueueFamilies_not_firstMatch :
    deviceLateGraphicsOverwrite.queueFamilies.findIdx? (·.supportsGraphics) = some 0 ∧
    (findQueueFamilies deviceLateGraphicsOverwrite).graphicsFamily = some 1 ∧
    findQueueFamilies deviceLateGraphicsOverwrite ≠
      findQueueFamiliesSpec deviceLateGraphicsOverwrite := by
  refine ⟨by decide, by decide, by decide⟩

/-- C4 amended: `findQueueFamilies` scans families in index order and stops
right after the first index at which both roles have matched somewhere; for
each role it records the last matching index among the examined prefix
(assignments overwrite, so the highest examined match wins, not the lowest). -/
theorem findQueueFamilies_lastMatchWins (device : VkPhysicalDevice) :
    findQueueFamilies device =
      { graphicsFamily := lastMatchIdxFrom (·.supportsGraphics) 0 none
          (device.queueFamilies.take (examinedCount false false device.queueFamilies))
        presentFamily := lastMatchIdxFrom (·.supportsPresent) 0 none
          (device.queueFamilies.take (examinedCount false false device.queueFamilies)) } :=
  findQueueFamiliesAux_eq device.queueFamilies 0 none none

/-- `multimapInsert` inserts exactly the new pair: membership in the result is
membership in the old list or equality with the pair. -/
theorem multimapInsert_mem (p q : Int × VkPhysicalDevice)
    (l : List (Int × VkPhysicalDevice)) :
    q ∈ multimapInsert p l ↔ q = p ∨ q ∈ l := by
  induction l with
  | nil => simp [multimapInsert]
  | cons a rest ih =>
    by_cases h : a.1 ≤ p.1 <;> simp [multimapInsert, h, ih]
    tauto

/-- `multimapInsert` keeps the candidate list sorted by key. -/
theorem multimapInsert_pairwise (p : Int × VkPhysicalDevice)
    (l : List (Int × VkPhysicalDevice)) (h : l.Pairwise (fun a b => a.1 ≤ b.1)) :
    (multimapInsert p l).Pairwise (fun a b => a.1 ≤ b.1) := by
  induction l with
  | nil => simp [multimapInsert]
  | cons a rest ih =>
    rcases List.pairwise_cons.mp h with ⟨ha, hrest⟩
    by_cases hc : a.1 ≤ p.1
    · rw [multimapInsert, if_pos hc]
      refine List.pairwise_cons.mpr ⟨?_, ih hrest⟩
      intro x hx
      rcases (multimapInsert_mem p x rest).mp hx with hxp | hxr
      · rw [hxp]; exact hc
      · exact ha x hxr
    · rw [multimapInsert, if_neg hc]
      refine List.pairwise_cons.mpr ⟨?_, h⟩
      intro x hx
      rcases List.mem_cons.mp hx with hxa | hxr
      · rw [hxa]; exact le_of_lt (not_le.mp hc)
      · exact le_trans (le_of_lt (not_le.mp hc)) (ha x hxr)

/-- In a key-sorted candidate list, the last entry has the greatest key. -/
theorem pairwise_getLast_max (l : List (Int × VkPhysicalDevice))
    (h : l.Pairwise (fun a b => a.1 ≤ b.1)) (hne : l ≠ []) :
    ∀ q ∈ l, q.1 ≤ (l.getLast hne).1 := by
  induction l with
  | nil => exact absurd rfl hne
  | cons a rest ih =>
    rcases List.pairwise_cons.mp h with ⟨ha, hrest⟩
    intro q hq
    cases rest with
    | nil =>
      rcases List.mem_cons.mp hq with hqa | hqr
      · rw [hqa]; exact le_refl _
      · exact absurd hqr (List.not_mem_nil q)
    | cons b rest2 =>
      rw [List.getLast_cons (List.cons_ne_nil b rest2)]
      rcases List.mem_cons.mp hq with hqa | hqr
      · rw [hqa]
        exact ha _ (List.getLast_mem (List.cons_ne_nil b rest2))
      · exact ih hrest (List.cons_ne_nil b rest2) q hqr

/-- Membership in the candidates multimap built by `pickPhysicalDevice`'s
loop: exactly the initial entries plus one `(score, device)` pair per
enumerated device. -/
theorem pickCandidates_mem (devices : List VkPhysicalDevice) :
    ∀ (init : List (Int × VkPhysicalDevice)) (q : Int × VkPhysicalDevice),
    (q ∈ devices.foldl
        (fun cs device => multimapInsert (rateDeviceSuitability device, device) cs) init ↔
      q ∈ init ∨ ∃ d ∈ devices, q = (rateDeviceSuitability d, d)) := by
  induction devices with
  | nil => intro init q; simp
  | cons d rest ih =>
    intro init q
    rw [List.foldl_cons, ih, multimapInsert_mem]
    simp only [List.mem_cons]
    constructor
    · rintro (⟨hq | hq⟩ | ⟨d2, hd2, hq⟩)
      · exact Or.inr ⟨d, Or.inl rfl, hq⟩
      · exact Or.inl hq
      · exact Or.inr ⟨d2, Or.inr hd2, hq⟩
    · rintro (hq | ⟨d2, hd2 | hd2, hq⟩)
      · exact Or.inl (Or.inr hq)
      · exact Or.inl (Or.inl (by rw [hq, hd2]))
      · exact Or.inr ⟨d2, hd2, hq⟩

/-- The candidates multimap built by `pickPhysicalDevice`'s loop is sorted by
key. -/
theorem pickCandidates_pairwise (devices : List VkPhysicalDevice) :
    ∀ init, init.Pairwise (fun a b => a.1 ≤ b.1) →
    (devices.foldl
        (fun cs device => multimapInsert (rateDeviceSuitability device, device) cs)
        init).Pairwise (fun a b => a.1 ≤ b.1) := by
  induction devices with
  | nil => intro init h; exact h
  | cons d rest ih =>
    intro init h
    exact ih _ (multimapInsert_pairwise _ _ h)

/-- For a non-empty device list, `pickPhysicalDevice` reads off the last
candidate: a device of maximum score, returned when that score is positive
and rejected with the no-suitable-GPU error otherwise. -/
theorem pickPhysicalDevice_best (devices : List VkPhysicalDevice) (hne : devices ≠ []) :
    ∃ best ∈ devices,
      (∀ d ∈ devices, rateDeviceSuitability d ≤ rateDeviceSuitability best) ∧
      pickPhysicalDevice devices =
        (if 0 < rateDeviceSuitability best then .ok best else .error .noSuitableGPU) := by
  have hemptyF : devices.isEmpty = false := by
    cases devices with
    | nil => exact absurd rfl hne
    | cons a l => rfl
  obtain ⟨d0, hd0⟩ : ∃ d, d ∈ devices := by
    cases devices with
    | nil => exact absurd rfl hne
    | cons a l => exact ⟨a, List.mem_cons_self a l⟩
  have hpair := pickCandidates_pairwise devices [] (by simp)
  have hmemiff := pickCandidates_mem devices []
  generalize hcs : devices.foldl
      (fun cs device => multimapInsert (rateDeviceSuitability device, device) cs) [] = cs
        at hpair hmemiff
  have hmem0 : (rateDeviceSuitability d0, d0) ∈ cs :=
    (hmemiff _).mpr (Or.inr ⟨d0, hd0, rfl⟩)
  have hcsne : cs ≠ [] := List.ne_nil_of_mem hmem0
  have hlastq : cs.getLast? = some (cs.getLast hcsne) :=
    List.getLast?_eq_getLast_of_ne_nil hcsne
  obtain ⟨db, hdb, hbeq⟩ : ∃ d ∈ devices, cs.getLast hcsne = (rateDeviceSuitability d, d) := by
    have hmemlast := (hmemiff (cs.getLast hcsne)).mp (List.getLast_mem hcsne)
    simpa using hmemlast
  refine ⟨db, hdb, ?_, ?_⟩
  · intro d hd
    have hmemd : (rateDeviceSuitability d, d) ∈ cs := (hmemiff _).mpr (Or.inr ⟨d, hd, rfl⟩)
    have hle := pairwise_getLast_max cs hpair hcsne _ hmemd
    rw [hbeq] at hle
    exact hle
  · unfold pickPhysicalDevice
    rw [hemptyF]
    simp only [Bool.false_eq_true, if_false, hcs, hlastq, hbeq]

/-- C2: `pickPhysicalDevice` fails with the no-Vulkan-GPU error on an empty
device list; on a non-empty list it returns a device of maximum score when
that maximum is positive, and fails with the no-suitable-GPU error when no
device scores above zero. -/
theorem pickPhysicalDevice_spec (devices : List VkPhysicalDevice) :
    (devices = [] → pickPhysicalDevice devices = .error .noVulkanGPU) ∧
    ((∃ d ∈ devices, 0 < rateDeviceSuitability d) →
      ∃ best ∈ devices, pickPhysicalDevice devices = .ok best ∧
        ∀ d ∈ devices, rateDeviceSuitability d ≤ rateDeviceSuitability best) ∧
    (devices ≠ [] → (∀ d ∈ devices, rateDeviceSuitability d ≤ 0) →
      pickPhysicalDevice devices = .error .noSuitableGPU) := by
  refine ⟨?_, ?_, ?_⟩
  · rintro rfl; rfl
  · rintro ⟨d, hd, hpos⟩
    obtain ⟨best, hbest, hmax, heq⟩ :=
      pickPhysicalDevice_best devices (List.ne_nil_of_mem hd)
    have hposb : 0 < rateDeviceSuitability best := lt_of_lt_of_le hpos (hmax d hd)
    exact ⟨best, hbest, by rw [heq, if_pos hposb], hmax⟩
  · intro hne hall
    obtain ⟨best, hbest, hmax, heq⟩ := pickPhysicalDevice_best devices hne
    have hnb : ¬ 0 < rateDeviceSuitability best := not_lt.mpr (hall best hbest)
    rw [heq, if_neg hnb]

/-- C2 witness: the empty list fails with the no-Vulkan-GPU error, a
single fully capable device is selected, and a single zero-scoring device
fails with the no-suitable-GPU error. -/
theorem pickPhysicalDevice_spec_witness :
    pickPhysicalDevice [] = .error .noVulkanGPU ∧
    (∃ best ∈ [goodDevice], pickPhysicalDevice [goodDevice] = .ok best ∧
      ∀ d ∈ [goodDevice], rateDeviceSuitability d ≤ rateDeviceSuitability best) ∧
    pickPhysicalDevice [deviceNoSwapchainExt] = .error .noSuitableGPU := by
  refine ⟨(pickPhysicalDevice_spec []).1 rfl, ?_, ?_⟩
  · exact (pickPhysicalDevice_spec [goodDevice]).2.1 ⟨goodDevice, by decide, by decide⟩
  · exact (pickPhysicalDevice_spec [deviceNoSwapchainExt]).2.2 (by decide)
      (by intro d hd; rw [List.mem_singleton.mp hd]; decide)

/-- C6: when `currentExtent.width` carries the sentinel `UINT32_MAX`,
`chooseSwapExtent` clamps the preferred `(WIDTH, HEIGHT)` componentwise into
`[minImageExtent, maxImageExtent]` — equal to the preference inside the
bounds, on the nearest bound outside, and always within the bounds when they
are ordered; without the sentinel it returns `currentExtent` unchanged. -/
theorem chooseSwapExtent_spec (caps : VkSurfaceCapabilitiesKHR) :
    (caps.currentExtent.width = UINT32_MAX →
      chooseSwapExtent caps =
        { width := max caps.minImageExtent.width (min caps.maxImageExtent.width WIDTH)
          height := max caps.minImageExtent.height (min caps.maxImageExtent.height HEIGHT) } ∧
      (caps.minImageExtent.width ≤ WIDTH ∧ WIDTH ≤ caps.maxImageExtent.width →
        (chooseSwapExtent caps).width = WIDTH) ∧
      (caps.minImageExtent.height ≤ HEIGHT ∧ HEIGHT ≤ caps.maxImageExtent.height →
        (chooseSwapExtent caps).height = HEIGHT) ∧
      (WIDTH < caps.minImageExtent.width →
        (chooseSwapExtent caps).width = caps.minImageExtent.width) ∧
      (caps.minImageExtent.width ≤ caps.maxImageExtent.width →
        caps.maxImageExtent.width < WIDTH →
        (chooseSwapExtent caps).width = caps.maxImageExtent.width) ∧
      (HEIGHT < caps.minImageExtent.height →
        (chooseSwapExtent caps).height = caps.minImageExtent.height) ∧
      (caps.minImageExtent.height ≤ caps.maxImageExtent.height →
        caps.maxImageExtent.height < HEIGHT →
        (chooseSwapExtent caps).height = caps.maxImageExtent.height)) ∧
    (caps.currentExtent.width ≠ UINT32_MAX → chooseSwapExtent caps = caps.currentExtent) := by
  constructor
  · intro hsent
    have hclamp : chooseSwapExtent caps =
        { width := max caps.minImageExtent.width (min caps.maxImageExtent.width WIDTH)
          height := max caps.minImageExtent.height (min caps.maxImageExtent.height HEIGHT) } := by
      unfold chooseSwapExtent
      rw [if_neg (by simp [hsent])]
    refine ⟨hclamp, ?_, ?_, ?_, ?_, ?_, ?_⟩ <;> rw [hclamp] <;>
      simp only [WIDTH, HEIGHT] <;> intros <;> omega
  · intro h
    unfold chooseSwapExtent
    rw [if_pos h]

/-- C6 witness: the claim's scenario — sentinel current extent, bounds 1×1 to
4096×4096, preferred size 800×600 — yields extent 800×600. -/
theorem chooseSwapExtent_spec_witness :
    chooseSwapExtent ⟨2, 0, ⟨1, 1⟩, ⟨4096, 4096⟩, ⟨4294967295, 4294967295⟩⟩ = ⟨800, 600⟩ := by
  have hw := ((chooseSwapExtent_spec ⟨2, 0, ⟨1, 1⟩, ⟨4096, 4096⟩, ⟨4294967295, 4294967295⟩⟩).1
    rfl).1
  rw [hw]
  decide

/-- C10: the sentinel branch of `chooseSwapExtent` inspects only the width
component: whenever `currentExtent.width` differs from `UINT32_MAX` the
current extent is returned unchanged, whatever its height — in particular for
any replacement height, including `UINT32_MAX` itself. -/
theorem chooseSwapExtent_checks_width_only (caps : VkSurfaceCapabilitiesKHR) (hgt : Nat)
    (h : caps.currentExtent.width ≠ UINT32_MAX) :
    chooseSwapExtent caps = caps.currentExtent ∧
    chooseSwapExtent { caps with currentExtent := ⟨caps.currentExtent.width, hgt⟩ } =
      ⟨caps.currentExtent.width, hgt⟩ := by
  constructor
  · unfold chooseSwapExtent
    rw [if_pos h]
  · unfold chooseSwapExtent
    rw [if_pos (by simpa using h)]

/-- C10 witness: width 1024 is not the sentinel, so the extent 1024×4294967295
is returned unchanged even though its height equals the 32-bit maximum. -/
theorem chooseSwapExtent_checks_width_only_witness :
    chooseSwapExtent ⟨2, 0, ⟨1, 1⟩, ⟨4096, 4096⟩, ⟨1024, 4294967295⟩⟩ = ⟨1024, 4294967295⟩ :=
  (chooseSwapExtent_checks_width_only ⟨2, 0, ⟨1, 1⟩, ⟨4096, 4096⟩, ⟨1024, 4294967295⟩⟩
    4294967295 (by decide)).1

/-- C7 counterexample: at `minImageCount = UINT32_MAX` with unbounded
`maxImageCount = 0`, the `uint32_t` increment wraps to `0`, so the chosen
image count is `0`: it is neither `minImageCount + 1` nor at least
`minImageCount`. -/
theorem createSwapChainImageCount_wraps :
    createSwapChainImageCount wrapCaps = 0 ∧
    createSwapChainImageCount wrapCaps ≠ wrapCaps.minImageCount + 1 ∧
    ¬ wrapCaps.minImageCount ≤ createSwapChainImageCount wrapCaps := by
  refine ⟨by decide, by decide, by decide⟩

/-- C7 amended: as long as `minImageCount < UINT32_MAX` (so the `uint32_t`
increment does not wrap), the chosen image count is `minImageCount + 1`,
clamped down to `maxImageCount` when that is nonzero and exceeded; hence the
count is at least `minImageCount` whenever `maxImageCount` is zero (unbounded)
or at least `minImageCount`, and at most `maxImageCount` whenever the latter
is nonzero. -/
theorem createSwapChainImageCount_spec (caps : VkSurfaceCapabilitiesKHR)
    (h : caps.minImageCount < UINT32_MAX) :
    (createSwapChainImageCount caps =
      if 0 < caps.maxImageCount ∧ caps.maxImageCount < caps.minImageCount + 1 then
        caps.maxImageCount
      else caps.minImageCount + 1) ∧
    (caps.maxImageCount = 0 → createSwapChainImageCount caps = caps.minImageCount + 1) ∧
    (caps.minImageCount ≤ caps.maxImageCount ∨ caps.maxImageCount = 0 →
      caps.minImageCount ≤ createSwapChainImageCount caps) ∧
    (0 < caps.maxImageCount → createSwapChainImageCount caps ≤ caps.maxImageCount) := by
  have hmod : (caps.minImageCount + 1) % 4294967296 = caps.minImageCount + 1 :=
    Nat.mod_eq_of_lt (by unfold UINT32_MAX at h; omega)
  have hcond : createSwapChainImageCount caps =
      if 0 < caps.maxImageCount ∧ caps.maxImageCount < caps.minImageCount + 1 then
        caps.maxImageCount
      else caps.minImageCount + 1 := by
    simp only [createSwapChainImageCount, hmod]
    by_cases h1 : 0 < caps.maxImageCount <;>
      by_cases h2 : caps.maxImageCount < caps.minImageCount + 1 <;>
        simp [h1, h2]
  refine ⟨hcond, ?_, ?_, ?_⟩ <;> rw [hcond] <;> split_ifs <;> omega

/-- C7 amended, witness: the claim's worked examples — `minImageCount = 2`
with unbounded maximum yields 3, and `minImageCount = 2` with
`maxImageCount = 2` clamps to 2. -/
theorem createSwapChainImageCount_spec_witness :
    createSwapChainImageCount ⟨2, 0, ⟨1, 1⟩, ⟨1, 1⟩, ⟨1, 1⟩⟩ = 3 ∧
    createSwapChainImageCount ⟨2, 2, ⟨1, 1⟩, ⟨1, 1⟩, ⟨1, 1⟩⟩ = 2 := by
  constructor
  · exact (createSwapChainImageCount_spec ⟨2, 0, ⟨1, 1⟩, ⟨1, 1⟩, ⟨1, 1⟩⟩ (by decide)).2.1 rfl
  · have hw := (createSwapChainImageCount_spec ⟨2, 2, ⟨1, 1⟩, ⟨1, 1⟩, ⟨1, 1⟩⟩ (by decide)).1
    rw [hw]
    decide

/-- The scanning loop of `chooseSwapSurfaceFormat` is first-match search. -/
theorem chooseSwapSurfaceFormatLoop_eq_find (l : List VkSurfaceFormatKHR) :
    chooseSwapSurfaceFormatLoop l = l.find? isPreferredSurfaceFormat := by
  induction l with
  | nil => rfl
  | cons f rest ih =>
    by_cases h : isPreferredSurfaceFormat f <;>
      simp [chooseSwapSurfaceFormatLoop, List.find?_cons, h, ih]

/-- C8: on a non-empty format list, `chooseSwapSurfaceFormat` returns the
first entry matching the preferred 8-bit-BGRA/sRGB-nonlinear pair, and falls
back to the entry at index 0 when no entry matches; every first match indeed
satisfies the preferred-format predicate. -/
theorem chooseSwapSurfaceFormat_spec (l : List VkSurfaceFormatKHR) (hne : l ≠ []) :
    chooseSwapSurfaceFormat l =
      some ((l.find? isPreferredSurfaceFormat).getD (l.head hne)) ∧
    ∀ f, l.find? isPreferredSurfaceFormat = some f → isPreferredSurfaceFormat f = true := by
  constructor
  · unfold chooseSwapSurfaceFormat
    rw [chooseSwapSurfaceFormatLoop_eq_find]
    cases hf : l.find? isPreferredSurfaceFormat with
    | some f => rfl
    | none => simp [List.head?_eq_head hne]
  · intro f hf
    exact List.find?_some hf

/-- C8 witness: a single non-preferred entry is returned as the index-0
fallback. -/
theorem chooseSwapSurfaceFormat_spec_witness :
    chooseSwapSurfaceFormat [⟨7, 7⟩] = some ⟨7, 7⟩ := by
  have hw := (chooseSwapSurfaceFormat_spec [⟨7, 7⟩] (by decide)).1
  rw [hw]
  decide

/-- C9: a strictly positive `rateDeviceSuitability` score forces the adequacy
veto to have passed, so the device's format and present-mode lists are
non-empty and `chooseSwapSurfaceFormat` totally returns an element of the
format list — the out-of-bounds fallback is unreachable after selection. -/
theorem ratedDevice_swapchain_safe (device : VkPhysicalDevice)
    (h : 0 < rateDeviceSuitability device) :
    device.formats ≠ [] ∧ device.presentModes ≠ [] ∧
    ∃ f ∈ device.formats, chooseSwapSurfaceFormat device.formats = some f := by
  have hcond : (!device.geometryShader || !checkDeviceExtensionSupport device
      || (checkDeviceExtensionSupport device && !checkAdequateSwapChain device)) = false := by
    by_contra hc
    rw [Bool.not_eq_false] at hc
    rw [rateDeviceSuitability_eq device, if_pos hc] at h
    exact absurd h (lt_irrefl 0)
  have hadq : checkAdequateSwapChain device = true := by
    rcases Bool.or_eq_false_iff.mp hcond with ⟨hgeoext, hswap⟩
    rcases Bool.or_eq_false_iff.mp hgeoext with ⟨-, hext⟩
    cases hadq2 : checkAdequateSwapChain device with
    | true => rfl
    | false =>
      rw [hadq2] at hswap
      simp at hswap hext
      simp [hswap] at hext
  have hpair := hadq
  unfold checkAdequateSwapChain querySwapChainSupport at hpair
  rw [Bool.and_eq_true] at hpair
  have hfne : device.formats ≠ [] := by
    intro hnil
    rw [hnil] at hpair
    simp at hpair
  have hpne : device.presentModes ≠ [] := by
    intro hnil
    rw [hnil] at hpair
    simp at hpair
  refine ⟨hfne, hpne, ?_⟩
  unfold chooseSwapSurfaceFormat
  rw [chooseSwapSurfaceFormatLoop_eq_find]
  cases hf : device.formats.find? isPreferredSurfaceFormat with
  | some f => exact ⟨f, List.mem_of_find?_eq_some hf, rfl⟩
  | none =>
    exact ⟨device.formats.head hfne, List.head_mem hfne,
      by rw [List.head?_eq_head hfne]⟩

/-- C9 witness: the fully capable concrete device scores positively and its
format choice lands inside its format list. -/
theorem ratedDevice_swapchain_safe_witness :
    goodDevice.formats ≠ [] ∧ goodDevice.presentModes ≠ [] ∧
    ∃ f ∈ goodDevice.formats, chooseSwapSurfaceFormat goodDevice.formats = some f :=
  ratedDevice_swapchain_safe goodDevice (by decide)

end VulkanRenderer
